import Mathlib

/-!
Shallow embedding of `src/ai.py` (novel-ai-formater): a checkpointed,
rate-limited batch reformatter for novel chapters.  Pure Python string
operations are modelled by executable Lean functions over `String`
(`String` is a list of unicode scalar values, matching Python's
code-point indexing); the filesystem is modelled explicitly (an output
directory is a list of (filename, contents) entries, the checkpoint file
an insertion-ordered association list mirroring a Python dict); the
fallible HTTP attempts of a worker are modelled by an oracle
`Nat → Outcome` giving the outcome of each numbered attempt.
-/

set_option maxHeartbeats 1000000

/-- Constant `OUTPUT_DIR = "/data/output"` (ai.py line 17). -/
def OUTPUT_DIR : String := "/data/output"

/-- Constant `TSV_FILE = "/data/result3.txt"` (ai.py line 19). -/
def TSV_FILE : String := "/data/result3.txt"

/-- Constant `CHECKPOINT_FILE = "/data/checkpoint.json"` (ai.py line 18). -/
def CHECKPOINT_FILE : String := "/data/checkpoint.json"

/-- Constant `RATE_LIMIT = 10` (ai.py line 21). -/
def RATE_LIMIT : Nat := 10

/-- Constant `MAX_CHAPTERS = None` (ai.py line 20); `none` models Python
`None`, `some m` an integer cap.  The orchestrator is parameterised over
this configuration value below, since the claims quantify over it. -/
def MAX_CHAPTERS : Option Int := none

/-- Python `os.path.join a b` for the relative second components used here. -/
def os_path_join (a b : String) : String := a ++ "/" ++ b

/-- Python whitespace recognised by `str.strip()` in the ASCII range
(the inputs of this program contain no exotic unicode whitespace). -/
def isPySpace (c : Char) : Bool :=
  c = ' ' || c = '\t' || c = '\n' || c = '\r' || c = '\x0b' || c = '\x0c'

/-- Python `s.strip()` with no arguments: drop leading and trailing whitespace. -/
def pyStrip (s : String) : String :=
  String.mk (((s.data.dropWhile isPySpace).reverse.dropWhile isPySpace).reverse)

/-- Replacement of every occurrence of the character `c` by the string `r`
in a list of characters. -/
def replaceCharAux (c : Char) (r : List Char) : List Char → List Char
  | [] => []
  | x :: xs =>
    if x = c then r ++ replaceCharAux c r xs else x :: replaceCharAux c r xs

/-- Python `s.replace(old, new)` for the single-character `old` patterns
used by ai.py (newline to space, and newline to the two characters
backslash-n). -/
def pyReplace (s : String) (c : Char) (r : String) : String :=
  String.mk (replaceCharAux c r.data s.data)

/-- Python `s.endswith(suffix)`. -/
def pyEndsWith (s suffix : String) : Bool :=
  suffix.data.reverse.isPrefixOf s.data.reverse

/-- Python format spec `04d` applied to a non-negative integer: the
decimal digits left-padded with zeros to width 4. -/
def zpad4 (n : Nat) : String :=
  let s := toString n
  String.mk (List.replicate (4 - s.length) '0') ++ s

/-- The string `numbered_title`: zero-padded chapter number, a space,
the title (ai.py line 61). -/
def numbered_title (chapter_num : Nat) (title : String) : String :=
  zpad4 chapter_num ++ " " ++ title

/-- The per-chapter output path: `os.path.join` of `OUTPUT_DIR` and the
numbered title followed by the `.txt` extension (ai.py line 62). -/
def output_path (chapter_num : Nat) (title : String) : String :=
  os_path_join OUTPUT_DIR (numbered_title chapter_num title ++ ".txt")

/-- Python dict key membership `k in d`, the dict being modelled as an
insertion-ordered association list with distinct keys. -/
def dictContains (d : List (String × String)) (k : String) : Bool :=
  d.any (fun p => p.1 == k)

/-- Python dict assignment `d[k] = v`: update in place when the key is
present, append a fresh entry otherwise (insertion order preserved). -/
def dictSet (d : List (String × String)) (k v : String) : List (String × String) :=
  if dictContains d k then
    d.map (fun p => if p.1 == k then (k, v) else p)
  else d ++ [(k, v)]

/-- Function `load_checkpoint` (ai.py lines 27-31).  The filesystem is
modelled by an `Option`: `some d` when `CHECKPOINT_FILE` exists and
`json.load` parses it to the mapping `d`, `none` when `os.path.exists`
is false, in which case the function returns the empty dict. -/
def load_checkpoint (file : Option (List (String × String))) : List (String × String) :=
  match file with
  | some d => d
  | none => []

/-- Outcome of one HTTP attempt inside `call_openai_format`:
`http429` is an HTTP 429 response (back off and retry), `httpErr` any
other non-200 status (ai.py line 74 raises, the `except` catches),
`netExn` any other exception raised during the attempt (network error,
the 60s timeout, JSON/field parse failure), and `ok content` a 200
response whose first choice's message content is `content`. -/
inductive Outcome where
  | http429
  | httpErr (status : Nat) (text : String)
  | netExn (msg : String)
  | ok (content : String)
deriving DecidableEq

/-- Observable effect of one `call_openai_format` invocation: the value
returned (Python `None` is `none`) and the single file write performed
on success (path, contents), `none` when no file was written. -/
structure WorkerEffect where
  retval : Option (String × String)
  fileWrite : Option (String × String)
deriving DecidableEq

/-- The retry loop of `call_openai_format` (ai.py lines 64-89).
`attempts k` is the outcome of the k-th HTTP attempt; `attempt` is the
Python loop variable and the second argument counts the loop iterations
still to run (`max_retries + 1 - attempt`), so `0` is the implicit
`return None` when the `for` loop is exhausted (reached when the last
attempt got a 429 and `continue`d).  A 429 sleeps and retries; any other
failure is caught by the `except`, which returns `None` when
`attempt == max_retries` and otherwise sleeps and retries; a 200 writes
the output file (title, blank line, stripped result) and returns the
pair of the title and the tab-joined title and newline-escaped result. -/
def workerLoop (attempts : Nat → Outcome) (title path : String) :
    Nat → Nat → WorkerEffect
  | _, 0 => ⟨none, none⟩
  | attempt, r + 1 =>
    match attempts attempt with
    | Outcome.ok content =>
      let result := pyStrip content
      let safe_result := pyReplace result '\n' "\\n"
      ⟨some (title, title ++ "\t" ++ safe_result), some (path, title ++ "\n\n" ++ result)⟩
    | Outcome.http429 => workerLoop attempts title path (attempt + 1) r
    | Outcome.httpErr _ _ =>
      if r = 0 then ⟨none, none⟩ else workerLoop attempts title path (attempt + 1) r
    | Outcome.netExn _ =>
      if r = 0 then ⟨none, none⟩ else workerLoop attempts title path (attempt + 1) r

/-- Function `call_openai_format` (ai.py lines 43-89) as a function of
its attempt-outcome oracle; the body only enters the prompt, which has
no observable effect, so it is unused here. -/
def call_openai_format (attempts : Nat → Outcome) (title _body : String)
    (chapter_num : Nat) (max_retries : Nat) : WorkerEffect :=
  workerLoop attempts title (output_path chapter_num title) 1 max_retries

/-- The odd/even pairing of `re.split` output consumed by the loop
`for i in range(1, len(parts), 2)` (ai.py line 104): `re.split` with one
capturing group returns `[prelude, heading1, body1, heading2, body2, ...]`,
an odd-length list, and the loop reads `parts[i], parts[i+1]`. -/
def pairsAux : List String → List (String × String)
  | t :: b :: rest => (t, b) :: pairsAux rest
  | _ => []

/-- Drop the prelude `parts[0]` and pair up the remaining segments. -/
def pairsOfParts : List String → List (String × String)
  | [] => []
  | _ :: rest => pairsAux rest

/-- Python truthiness test `MAX_CHAPTERS and chapter_num > MAX_CHAPTERS`
(ai.py line 113): falsy when the cap is `None` or `0`. -/
def capBreak (maxChapters : Option Int) (chapter_num : Nat) : Bool :=
  match maxChapters with
  | none => false
  | some m => if m = 0 then false else decide ((chapter_num : Int) > m)

/-- The scheduling loop of `split_and_process_async` (ai.py lines 104-116):
strip the heading, collapse body newlines to spaces, skip chapters whose
title is in the checkpoint, number the remaining chapters consecutively
(the counter increments only for non-skipped chapters), `break` when the
incremented counter exceeds a truthy `MAX_CHAPTERS`.  Returns the
`(chapter_num, title, body)` triples handed to `call_openai_format`. -/
def scheduleLoop (checkpoint : List (String × String)) (maxChapters : Option Int) :
    List (String × String) → Nat → List (Nat × String × String)
  | [], _ => []
  | (t, b) :: rest, chapter_num =>
    let title := pyStrip t
    let body := pyReplace (pyStrip b) '\n' " "
    if dictContains checkpoint title then
      scheduleLoop checkpoint maxChapters rest chapter_num
    else
      let n := chapter_num + 1
      if capBreak maxChapters n then []
      else (n, title, body) :: scheduleLoop checkpoint maxChapters rest n

/-- The chapters scheduled by one run of `split_and_process_async`, as a
function of the `re.split` segments, the loaded checkpoint and the
`MAX_CHAPTERS` configuration. -/
def schedule (parts : List String) (checkpoint : List (String × String))
    (maxChapters : Option Int) : List (Nat × String × String) :=
  scheduleLoop checkpoint maxChapters (pairsOfParts parts) 0

/-- The checkpoint update after `asyncio.gather` (ai.py lines 120-123):
each non-`None` result `(title, line)` performs `checkpoint[title] = "done"`. -/
def updateCheckpoint (checkpoint : List (String × String))
    (results : List (Option (String × String))) : List (String × String) :=
  results.foldl
    (fun c r =>
      match r with
      | some (title, _) => dictSet c title "done"
      | none => c)
    checkpoint

/-- The workers of one whole run: every scheduled chapter invokes
`call_openai_format`; `attemptsOf n title` is the attempt-outcome oracle
of the worker for chapter number `n` with title `title`. -/
def runWorkers (parts : List String) (checkpoint : List (String × String))
    (maxChapters : Option Int) (max_retries : Nat)
    (attemptsOf : Nat → String → Nat → Outcome) : List WorkerEffect :=
  (schedule parts checkpoint maxChapters).map
    (fun c => call_openai_format (attemptsOf c.1 c.2.1) c.2.1 c.2.2 c.1 max_retries)

/-- The checkpoint mapping passed to `save_checkpoint` at the end of a
run (ai.py lines 118-125). -/
def savedCheckpoint (parts : List String) (checkpoint : List (String × String))
    (maxChapters : Option Int) (max_retries : Nat)
    (attemptsOf : Nat → String → Nat → Outcome) : List (String × String) :=
  updateCheckpoint checkpoint
    ((runWorkers parts checkpoint maxChapters max_retries attemptsOf).map
      (fun e => e.retval))

/-- Python `f.readlines()`: split the text into lines, each keeping its
trailing newline character; `acc` holds the current line reversed. -/
def readlinesAux : List Char → List Char → List String
  | [], [] => []
  | [], acc => [String.mk acc.reverse]
  | c :: rest, acc =>
    if c = '\n' then String.mk (acc.reverse ++ ['\n']) :: readlinesAux rest []
    else readlinesAux rest (c :: acc)

/-- Python `f.readlines()` on a file with contents `s`. -/
def pyReadlines (s : String) : List String := readlinesAux s.data []

/-- Insertion step of the sort below. -/
def insertByName (x : String × String) : List (String × String) → List (String × String)
  | [] => [x]
  | y :: ys => if x.1 ≤ y.1 then x :: y :: ys else y :: insertByName x ys

/-- Python `sorted(os.listdir(OUTPUT_DIR))`: the directory entries in
ascending filename order (insertion sort; any deterministic sort models
`sorted`, whose comparisons are code-point lexicographic). -/
def sortByName (l : List (String × String)) : List (String × String) :=
  l.foldr insertByName []

/-- The per-file blocks built by `regenerate_tsv_from_output`
(ai.py lines 132-140): for each `.txt` file in sorted filename order,
`lines[0].strip()[4:]` then a newline then `''.join(lines[2:]).strip()`
then a newline. -/
def tsvEntries (dir : List (String × String)) : List String :=
  ((sortByName dir).filter (fun p => pyEndsWith p.1 ".txt")).map (fun p =>
    let lines := pyReadlines p.2
    let original_title := String.mk ((pyStrip (lines.headD "")).data.drop 4)
    let content := pyStrip (String.join (lines.drop 2))
    original_title ++ "\n" ++ content ++ "\n")

/-- Function `regenerate_tsv_from_output` (ai.py lines 131-145) as a pure
function of the output directory (a list of (filename, contents)
entries): the full contents written to `TSV_FILE`, each entry followed
by one extra newline (`f.write(line + '\n')`). -/
def regenerate_tsv_from_output (dir : List (String × String)) : String :=
  String.join ((tsvEntries dir).map (fun line => line ++ "\n"))

/-- The filesystem state the aggregator touches: the output directory
(never written by it) and the consolidated `TSV_FILE` contents. -/
structure FsState where
  outputDir : List (String × String)
  tsv : String

/-- One aggregator run: `open(TSV_FILE, 'w')` truncates and rewrites the
consolidated file from the current output directory (ai.py lines 142-144);
the output directory itself is only read. -/
def run_regenerate (s : FsState) : FsState :=
  { outputDir := s.outputDir, tsv := regenerate_tsv_from_output s.outputDir }

/-! Helper lemmas about the embedded operations. -/

/-- An entry of a dict witnesses key membership. -/
theorem dictContains_of_mem (d : List (String × String)) (kv : String × String)
    (hmem : kv ∈ d) : dictContains d kv.1 = true := by
  simp only [dictContains, List.any_eq_true]
  exact ⟨kv, hmem, by simp⟩

/-- Assigning a different key leaves an entry in place. -/
theorem mem_dictSet_of_ne (d : List (String × String)) (k v : String)
    (kv : String × String) (hmem : kv ∈ d) (hne : kv.1 ≠ k) :
    kv ∈ dictSet d k v := by
  unfold dictSet
  split
  · exact List.mem_map.mpr ⟨kv, hmem, by simp [hne]⟩
  · exact List.mem_append_left _ hmem

/-- Every entry after an assignment was already present or carries the
assigned value. -/
theorem mem_dictSet_cases (d : List (String × String)) (k v : String)
    (kv : String × String) (hmem : kv ∈ dictSet d k v) :
    kv ∈ d ∨ kv.2 = v := by
  unfold dictSet at hmem
  split at hmem
  · obtain ⟨p, hp, hpe⟩ := List.mem_map.mp hmem
    by_cases hk : p.1 = k
    · right; rw [← hpe]; simp [hk]
    · left; rw [← hpe]; simpa [hk] using hp
  · rcases List.mem_append.mp hmem with h | h
    · exact Or.inl h
    · simp only [List.mem_singleton] at h
      right; rw [h]

/-- Entries survive the checkpoint update when no successful result
carries their key. -/
theorem mem_updateCheckpoint_of_mem :
    ∀ (rs : List (Option (String × String))) (c : List (String × String))
      (kv : String × String), kv ∈ c →
      (∀ t s, some (t, s) ∈ rs → kv.1 ≠ t) →
      kv ∈ updateCheckpoint c rs := by
  intro rs
  induction rs with
  | nil => intro c kv h _; exact h
  | cons r rest ih =>
    intro c kv h hts
    cases r with
    | none =>
      exact ih c kv h (fun t s hmem => hts t s (List.mem_cons_of_mem _ hmem))
    | some p =>
      obtain ⟨t, s⟩ := p
      have h1 : kv ∈ dictSet c t "done" :=
        mem_dictSet_of_ne c t "done" kv h (hts t s (List.mem_cons_self _ _))
      exact ih _ kv h1 (fun t' s' hmem => hts t' s' (List.mem_cons_of_mem _ hmem))

/-- Every entry of the updated checkpoint was already present or has
value "done". -/
theorem mem_updateCheckpoint_cases :
    ∀ (rs : List (Option (String × String))) (c : List (String × String))
      (kv : String × String), kv ∈ updateCheckpoint c rs →
      kv ∈ c ∨ kv.2 = "done" := by
  intro rs
  induction rs with
  | nil => intro c kv h; exact Or.inl h
  | cons r rest ih =>
    intro c kv h
    cases r with
    | none => exact ih c kv h
    | some p =>
      obtain ⟨t, s⟩ := p
      rcases ih (dictSet c t "done") kv h with h1 | h1
      · exact mem_dictSet_cases c t "done" kv h1
      · exact Or.inr h1

/-- A `None` result anywhere in the gathered list leaves the checkpoint
update unchanged. -/
theorem updateCheckpoint_append_none (c : List (String × String))
    (pre post : List (Option (String × String))) :
    updateCheckpoint c (pre ++ none :: post) = updateCheckpoint c (pre ++ post) := by
  simp [updateCheckpoint, List.foldl_append]

/-- Scheduled chapters never have a checkpointed title. -/
theorem mem_scheduleLoop (checkpoint : List (String × String)) (maxChapters : Option Int) :
    ∀ (ps : List (String × String)) (n : Nat) (e : Nat × String × String),
      e ∈ scheduleLoop checkpoint maxChapters ps n →
      dictContains checkpoint e.2.1 = false := by
  intro ps
  induction ps with
  | nil => intro n e h; simp [scheduleLoop] at h
  | cons p rest ih =>
    obtain ⟨t, b⟩ := p
    intro n e h
    simp only [scheduleLoop] at h
    split at h
    · exact ih n e h
    · next hc =>
      split at h
      · simp at h
      · rcases List.mem_cons.mp h with rfl | h2
        · simpa using hc
        · exact ih _ e h2

/-- The chapter numbers of the scheduled chapters count consecutively
from one past the accumulator. -/
theorem scheduleLoop_map_fst (checkpoint : List (String × String)) (maxChapters : Option Int) :
    ∀ (ps : List (String × String)) (n : Nat),
      (scheduleLoop checkpoint maxChapters ps n).map Prod.fst =
        List.range' (n + 1) (scheduleLoop checkpoint maxChapters ps n).length := by
  intro ps
  induction ps with
  | nil => intro n; simp [scheduleLoop]
  | cons p rest ih =>
    obtain ⟨t, b⟩ := p
    intro n
    simp only [scheduleLoop]
    split
    · exact ih n
    · split
      · simp
      · simp only [List.map_cons, List.length_cons, List.range'_succ, List.cons.injEq]
        exact ⟨trivial, ih (n + 1)⟩

/-- Under a positive cap the scheduling loop produces exactly the prefix
of the uncapped schedule. -/
theorem scheduleLoop_cap (checkpoint : List (String × String)) (M : Int) (hM : 0 < M) :
    ∀ (ps : List (String × String)) (n : Nat),
      scheduleLoop checkpoint (some M) ps n =
        (scheduleLoop checkpoint none ps n).take (M - n).toNat := by
  intro ps
  induction ps with
  | nil => intro n; simp [scheduleLoop]
  | cons p rest ih =>
    obtain ⟨t, b⟩ := p
    intro n
    simp only [scheduleLoop]
    have hnone : capBreak none (n + 1) = false := rfl
    rw [hnone]
    by_cases hd : dictContains checkpoint (pyStrip t) = true
    · simp only [hd, if_true]
      exact ih n
    · simp only [hd, if_false, Bool.false_eq_true]
      by_cases hbr : ((n : Int) + 1) > M
      · have hcap : capBreak (some M) (n + 1) = true := by
          simp only [capBreak]
          rw [if_neg (by omega)]
          simpa using hbr
        rw [hcap]
        have h0 : (M - (n : Int)).toNat = 0 := by omega
        simp [h0]
      · have hcap : capBreak (some M) (n + 1) = false := by
          simp only [capBreak]
          rw [if_neg (by omega)]
          simpa using hbr
        rw [hcap]
        have h1 : (M - (n : Int)).toNat = (M - ((n : Int) + 1)).toNat + 1 := by omega
        simp only [Bool.false_eq_true, if_false, h1, List.take_succ_cons, List.cons.injEq]
        refine ⟨trivial, ?_⟩
        have := ih (n + 1)
        simpa using this

/-- A cap of zero is falsy in Python, so the loop never breaks: the
schedule equals the uncapped one. -/
theorem scheduleLoop_cap_zero (checkpoint : List (String × String)) :
    ∀ (ps : List (String × String)) (n : Nat),
      scheduleLoop checkpoint (some 0) ps n = scheduleLoop checkpoint none ps n := by
  intro ps
  induction ps with
  | nil => intro n; rfl
  | cons p rest ih =>
    obtain ⟨t, b⟩ := p
    intro n
    simp only [scheduleLoop]
    have h1 : capBreak (some 0) (n + 1) = false := rfl
    have h2 : capBreak none (n + 1) = false := rfl
    rw [h1, h2]
    by_cases hd : dictContains checkpoint (pyStrip t) = true
    · simp only [hd, if_true]
      exact ih n
    · simp only [hd, if_false, Bool.false_eq_true]
      rw [ih (n + 1)]

/-- When every allowed attempt fails, the retry loop performs no file
write and returns Python `None`. -/
theorem workerLoop_all_fail (attempts : Nat → Outcome) (title path : String) :
    ∀ (r a : Nat),
      (∀ k, a ≤ k → k < a + r → ∀ s, attempts k ≠ Outcome.ok s) →
      workerLoop attempts title path a r = ⟨none, none⟩ := by
  intro r
  induction r with
  | zero => intro a _; rfl
  | succ r ih =>
    intro a hfail
    have hshift : ∀ k, a + 1 ≤ k → k < (a + 1) + r → ∀ s, attempts k ≠ Outcome.ok s :=
      fun k h1 h2 s => hfail k (by omega) (by omega) s
    cases hout : attempts a with
    | ok s => exact absurd hout (hfail a (by omega) (by omega) s)
    | http429 =>
      simp only [workerLoop, hout]
      exact ih (a + 1) hshift
    | httpErr st tx =>
      simp only [workerLoop, hout]
      split
      · rfl
      · exact ih (a + 1) hshift
    | netExn m =>
      simp only [workerLoop, hout]
      split
      · rfl
      · exact ih (a + 1) hshift

/-- The retry loop returns either `None` or a pair whose first component
is its own title. -/
theorem workerLoop_retval_title (attempts : Nat → Outcome) (title path : String) :
    ∀ (r a : Nat),
      (workerLoop attempts title path a r).retval = none ∨
      ∃ s, (workerLoop attempts title path a r).retval = some (title, s) := by
  intro r
  induction r with
  | zero => intro a; exact Or.inl rfl
  | succ r ih =>
    intro a
    cases hout : attempts a with
    | ok s =>
      simp only [workerLoop, hout]
      exact Or.inr ⟨title ++ "\t" ++ pyReplace (pyStrip s) '\n' "\\n", rfl⟩
    | http429 =>
      simp only [workerLoop, hout]
      exact ih (a + 1)
    | httpErr st tx =>
      simp only [workerLoop, hout]
      split
      · exact Or.inl rfl
      · exact ih (a + 1)
    | netExn m =>
      simp only [workerLoop, hout]
      split
      · exact Or.inl rfl
      · exact ih (a + 1)

/-- Any file write performed by the retry loop targets exactly the path
it was given. -/
theorem workerLoop_fileWrite_path (attempts : Nat → Outcome) (title path : String) :
    ∀ (r a : Nat) (p c : String),
      (workerLoop attempts title path a r).fileWrite = some (p, c) → p = path := by
  intro r
  induction r with
  | zero => intro a p c h; exact absurd h (by simp [workerLoop])
  | succ r ih =>
    intro a p c h
    cases hout : attempts a with
    | ok s =>
      simp only [workerLoop, hout] at h
      simp only [Option.some.injEq, Prod.mk.injEq] at h
      exact h.1.symm
    | http429 =>
      simp only [workerLoop, hout] at h
      exact ih (a + 1) p c h
    | httpErr st tx =>
      simp only [workerLoop, hout] at h
      split at h
      · exact absurd h (by simp)
      · exact ih (a + 1) p c h
    | netExn m =>
      simp only [workerLoop, hout] at h
      split at h
      · exact absurd h (by simp)
      · exact ih (a + 1) p c h

/-- Every successful result gathered in a run carries the title of a
scheduled (hence non-checkpointed) chapter. -/
theorem runWorkers_retval_titles (parts : List String) (checkpoint : List (String × String))
    (maxChapters : Option Int) (max_retries : Nat)
    (attemptsOf : Nat → String → Nat → Outcome) (t s : String)
    (hmem : some (t, s) ∈ (runWorkers parts checkpoint maxChapters max_retries attemptsOf).map
      (fun e => e.retval)) :
    dictContains checkpoint t = false := by
  simp only [runWorkers, List.map_map, List.mem_map, Function.comp] at hmem
  obtain ⟨c, hc, hce⟩ := hmem
  have hsched : dictContains checkpoint c.2.1 = false :=
    mem_scheduleLoop checkpoint maxChapters (pairsOfParts parts) 0 c hc
  rcases workerLoop_retval_title (attemptsOf c.1 c.2.1) c.2.1
      (output_path c.1 c.2.1) max_retries 1 with h | ⟨s', h⟩
  · rw [show (call_openai_format (attemptsOf c.1 c.2.1) c.2.1 c.2.2 c.1 max_retries).retval
        = (workerLoop (attemptsOf c.1 c.2.1) c.2.1 (output_path c.1 c.2.1) 1 max_retries).retval
      from rfl, h] at hce
    exact absurd hce (by simp)
  · rw [show (call_openai_format (attemptsOf c.1 c.2.1) c.2.1 c.2.2 c.1 max_retries).retval
        = (workerLoop (attemptsOf c.1 c.2.1) c.2.1 (output_path c.1 c.2.1) 1 max_retries).retval
      from rfl, h] at hce
    simp only [Option.some.injEq, Prod.mk.injEq] at hce
    rw [← hce.1]
    exact hsched

/-! The claims. -/

/-- C1: the consolidated block does NOT begin with the chapter's original
title line as stored in the output file.  The output file stores the bare
title (ai.py line 79 writes the title, not the numbered title), yet the
aggregator computes the block's title line as the stored first line with
its first 4 characters removed (ai.py line 138), mangling every nonempty
title: evaluated at a stored file whose title line is the 9-character
title of chapter 10, the block's first line is the title minus its first
4 characters, not the stored title. -/
theorem aggregator_strips_title_chars :
    regenerate_tsv_from_output
        [("0010 第10章 风起（上）.txt", "第10章 风起（上）\n\nBODY")] =
      " 风起（上）\nBODY\n\n" ∧
    " 风起（上）\nBODY\n\n" ≠ "第10章 风起（上）" ++ "\n" ++ "BODY" ++ "\n" ++ "\n" :=
  ⟨by decide, by decide⟩

/-- C2 counterexample: the ordinal in the output path is NOT the
chapter's position in the document's full chapter sequence and the path
is NOT independent of the checkpoint.  With chapters T1, T2 and an empty
checkpoint, T2 is scheduled as chapter 2; with T1 checkpointed, T2 is
scheduled as chapter 1 (ai.py increments `chapter_num` only after the
checkpoint skip, lines 108-112), and the two resulting paths differ. -/
theorem ordinal_depends_on_checkpoint :
    schedule ["", "T1", "b1", "T2", "b2"] [] none = [(1, "T1", "b1"), (2, "T2", "b2")] ∧
    schedule ["", "T1", "b1", "T2", "b2"] [("T1", "done")] none = [(1, "T2", "b2")] ∧
    output_path 1 "T2" ≠ output_path 2 "T2" :=
  ⟨by decide, by decide, by decide⟩

/-- C2 (amended): a successful worker writes its output file to the
output directory plus the zero-padded 4-digit per-run sequence number of
the chapter — its 1-based position among the chapters scheduled in this
run, i.e. among the non-checkpointed chapters in document order — a
space, the title, and the `.txt` extension; the path therefore depends on
which chapters are checkpointed when the run starts. -/
theorem scheduled_ordinals_per_run (parts : List String)
    (checkpoint : List (String × String)) (maxChapters : Option Int) :
    (schedule parts checkpoint maxChapters).map Prod.fst =
      List.range' 1 (schedule parts checkpoint maxChapters).length ∧
    ∀ (attempts : Nat → Outcome) (t b : String) (n m : Nat) (p c : String),
      (call_openai_format attempts t b n m).fileWrite = some (p, c) →
      p = output_path n t := by
  constructor
  · exact scheduleLoop_map_fst checkpoint maxChapters (pairsOfParts parts) 0
  · intro attempts t b n m p c h
    exact workerLoop_fileWrite_path attempts t (output_path n t) m 1 p c h

/-- Witness for C2 (amended) at a concrete run and a concrete successful
worker. -/
theorem scheduled_ordinals_per_run_witness :
    (schedule ["", "A", "a"] [] none).map Prod.fst =
      List.range' 1 (schedule ["", "A", "a"] [] none).length ∧
    "/data/output/0001 A.txt" = output_path 1 "A" :=
  ⟨(scheduled_ordinals_per_run ["", "A", "a"] [] none).1,
   (scheduled_ordinals_per_run ["", "A", "a"] [] none).2 (fun _ => Outcome.ok "R") "A" "a" 1 5
     "/data/output/0001 A.txt" "A\n\nR" (by decide)⟩

/-- C3: a chapter whose (stripped) title is in the checkpoint loaded at
the start of the run is never handed to a worker: every scheduled
chapter's title is absent from the checkpoint. -/
theorem checkpointed_never_scheduled (parts : List String)
    (checkpoint : List (String × String)) (maxChapters : Option Int)
    (e : Nat × String × String) (he : e ∈ schedule parts checkpoint maxChapters) :
    dictContains checkpoint e.2.1 = false :=
  mem_scheduleLoop checkpoint maxChapters (pairsOfParts parts) 0 e he

/-- Witness for C3 at a concrete document and checkpoint. -/
theorem checkpointed_never_scheduled_witness :
    dictContains [("X", "done")] ((1 : Nat), "T1", "b1").2.1 = false :=
  checkpointed_never_scheduled ["", "T1", "b1"] [("X", "done")] none (1, "T1", "b1") (by decide)

/-- C4: a worker all of whose attempts up to `max_retries` fail (HTTP
429, other non-200 status, or a caught exception such as a timeout or
parse error) returns the sentinel `None`, writes no output file, and a
`None` result anywhere in the gathered list adds nothing to the saved
checkpoint. -/
theorem worker_retry_exhaustion (attempts : Nat → Outcome) (title body : String)
    (chapter_num max_retries : Nat)
    (hfail : ∀ k, 1 ≤ k → k ≤ max_retries → ∀ s, attempts k ≠ Outcome.ok s) :
    call_openai_format attempts title body chapter_num max_retries = ⟨none, none⟩ ∧
    ∀ (ckpt : List (String × String)) (pre post : List (Option (String × String))),
      updateCheckpoint ckpt
          (pre ++ (call_openai_format attempts title body chapter_num max_retries).retval :: post) =
        updateCheckpoint ckpt (pre ++ post) := by
  have h1 : call_openai_format attempts title body chapter_num max_retries = ⟨none, none⟩ :=
    workerLoop_all_fail attempts title (output_path chapter_num title) max_retries 1
      (fun k hk1 hk2 s => hfail k hk1 (by omega) s)
  refine ⟨h1, ?_⟩
  intro ckpt pre post
  rw [h1]
  exact updateCheckpoint_append_none ckpt pre post

/-- Witness for C4: five straight timeouts with a budget of five. -/
theorem worker_retry_exhaustion_witness :
    call_openai_format (fun _ => Outcome.netExn "timeout") "T" "B" 1 5 = ⟨none, none⟩ ∧
    updateCheckpoint [("A", "done")]
        ([] ++ (call_openai_format (fun _ => Outcome.netExn "timeout") "T" "B" 1 5).retval :: []) =
      updateCheckpoint [("A", "done")] ([] ++ []) := by
  have h := worker_retry_exhaustion (fun _ => Outcome.netExn "timeout") "T" "B" 1 5
    (by intro k _ _ s hk; exact Outcome.noConfusion hk)
  exact ⟨h.1, h.2 [("A", "done")] [] []⟩

/-- C6: with a positive chapter cap M the orchestrator schedules exactly
the first min(M, number of non-checkpointed chapters) non-checkpointed
chapters, in document order (the capped schedule is a prefix of the
uncapped one). -/
theorem chapter_cap_truncates (parts : List String)
    (checkpoint : List (String × String)) (M : Int) (hM : 0 < M) :
    schedule parts checkpoint (some M) = (schedule parts checkpoint none).take M.toNat ∧
    (schedule parts checkpoint (some M)).length =
      min M.toNat (schedule parts checkpoint none).length := by
  have h := scheduleLoop_cap checkpoint M hM (pairsOfParts parts) 0
  have h0 : ((M : Int) - ((0 : Nat) : Int)).toNat = M.toNat := by omega
  rw [h0] at h
  refine ⟨h, ?_⟩
  show (scheduleLoop checkpoint (some M) (pairsOfParts parts) 0).length = _
  rw [h, List.length_take]
  rfl

/-- Witness for C6 with a cap of 1 and two fresh chapters. -/
theorem chapter_cap_truncates_witness :
    schedule ["", "A", "a", "B", "b"] [] (some 1) =
      (schedule ["", "A", "a", "B", "b"] [] none).take (1 : Int).toNat ∧
    (schedule ["", "A", "a", "B", "b"] [] (some 1)).length =
      min (1 : Int).toNat (schedule ["", "A", "a", "B", "b"] [] none).length :=
  chapter_cap_truncates ["", "A", "a", "B", "b"] [] 1 (by decide)

/-- C7: when no checkpoint file exists, `load_checkpoint` returns the
empty mapping rather than raising, and a run started from it schedules
exactly as if no chapters were done yet. -/
theorem load_checkpoint_missing_file :
    load_checkpoint none = [] ∧
    ∀ (parts : List String) (maxChapters : Option Int),
      schedule parts (load_checkpoint none) maxChapters = schedule parts [] maxChapters :=
  ⟨rfl, fun _ _ => rfl⟩

/-- C8: the aggregator is a deterministic full rebuild: it never touches
the output directory, and running it twice in a row over an unchanged
directory leaves a state byte-identical to running it once (the
consolidated file is opened with mode `w` and rewritten wholesale, not
appended to). -/
theorem aggregator_idempotent (s : FsState) :
    run_regenerate (run_regenerate s) = run_regenerate s ∧
    (run_regenerate s).outputDir = s.outputDir :=
  ⟨rfl, rfl⟩

/-- C9: the checkpoint saved at the end of a run contains every entry of
the loaded checkpoint (no entry is removed or overwritten, since only
non-checkpointed titles are scheduled); every entry it adds has value
"done"; consequently, if every loaded value was "done", every saved
value is "done". -/
theorem checkpoint_monotone (parts : List String) (checkpoint : List (String × String))
    (maxChapters : Option Int) (max_retries : Nat)
    (attemptsOf : Nat → String → Nat → Outcome) :
    (∀ kv, kv ∈ checkpoint →
      kv ∈ savedCheckpoint parts checkpoint maxChapters max_retries attemptsOf) ∧
    (∀ kv, kv ∈ savedCheckpoint parts checkpoint maxChapters max_retries attemptsOf →
      kv ∈ checkpoint ∨ kv.2 = "done") ∧
    ((∀ kv, kv ∈ checkpoint → kv.2 = "done") →
      ∀ kv, kv ∈ savedCheckpoint parts checkpoint maxChapters max_retries attemptsOf →
        kv.2 = "done") := by
  refine ⟨?_, ?_, ?_⟩
  · intro kv hkv
    show kv ∈ updateCheckpoint checkpoint
      ((runWorkers parts checkpoint maxChapters max_retries attemptsOf).map (fun e => e.retval))
    apply mem_updateCheckpoint_of_mem _ _ kv hkv
    intro t s hts heq
    have h1 : dictContains checkpoint t = false :=
      runWorkers_retval_titles parts checkpoint maxChapters max_retries attemptsOf t s hts
    have h2 : dictContains checkpoint kv.1 = true := dictContains_of_mem checkpoint kv hkv
    rw [heq, h1] at h2
    exact Bool.noConfusion h2
  · intro kv hkv
    exact mem_updateCheckpoint_cases _ checkpoint kv hkv
  · intro hall kv hkv
    rcases mem_updateCheckpoint_cases _ checkpoint kv hkv with h | h
    · exact hall kv h
    · exact h

/-- Witness for C9 at a concrete resumed run: the old entry survives and
the new entry is accounted for. -/
theorem checkpoint_monotone_witness :
    ("A", "done") ∈ savedCheckpoint ["", "A", "a", "B", "b"] [("A", "done")] none 5
        (fun _ _ _ => Outcome.ok "R") ∧
    (("B", "done") ∈ ([("A", "done")] : List (String × String)) ∨ ("B", "done").2 = "done") :=
  ⟨(checkpoint_monotone ["", "A", "a", "B", "b"] [("A", "done")] none 5
      (fun _ _ _ => Outcome.ok "R")).1 ("A", "done") (by decide),
   (checkpoint_monotone ["", "A", "a", "B", "b"] [("A", "done")] none 5
      (fun _ _ _ => Outcome.ok "R")).2.1 ("B", "done") (by decide)⟩

/-- C10: a chapter cap of 0 is falsy in Python's truthiness test at
ai.py line 113, so it imposes no truncation: the schedule equals the
uncapped (None) schedule, covering every non-checkpointed chapter. -/
theorem cap_zero_no_truncation (parts : List String)
    (checkpoint : List (String × String)) :
    schedule parts checkpoint (some 0) = schedule parts checkpoint none :=
  scheduleLoop_cap_zero checkpoint (pairsOfParts parts) 0
